import Mathlib

/-!
Shallow embedding of `make.py` from huangqinjin/android-exe-launcher.

The tool locates (or downloads) an Android system image, extracts a minimal
runtime from its APEX module and packages the result.  Pure path/string
computations are translated directly; filesystem, network and subprocess
effects are modelled by explicit state (an association list of files) and an
action trace.  Python exceptions are modelled by `Except PyError`.
-/

namespace Make

/-- Python exception classes that can surface in `make.py`. -/
inductive PyError
  | fileNotFoundError
  | keyError
  | valueError
  | unboundLocalError
  deriving Repr, DecidableEq

/-- Model of `os.path.join a b` for the well-formed relative/absolute components the
tool uses (no absolute second component, no trailing separators). -/
def joinPath (a b : String) : String :=
  if a = "" then b else a ++ "/" ++ b

/-- A filesystem: association list from path to file content.  A path is a
file (`os.path.isfile`) iff it is a key. -/
def FS := List (String × String)

/-- Content of a file, `none` when absent. -/
def FS.read (fs : FS) (p : String) : Option String :=
  List.lookup p fs

/-- Model of `os.path.isfile`. -/
def FS.isfile (fs : FS) (p : String) : Bool :=
  (fs.read p).isSome

/-- The common ASCII whitespace characters Python strips. -/
def isPySpace (c : Char) : Bool :=
  c = ' ' ∨ c = '\t' ∨ c = '\n' ∨ c = '\x0d'

/-- Strip whitespace from both ends of a character list (`str.strip`). -/
def trimChars (l : List Char) : List Char :=
  ((l.dropWhile isPySpace).reverse.dropWhile isPySpace).reverse

/-- ASCII lowercasing of one character (`str.lower`; the tool's keys are
ASCII). -/
def lowerChar (c : Char) : Char :=
  if 'A' ≤ c ∧ c ≤ 'Z' then Char.ofNat (c.toNat + 32) else c

/-- ASCII lowercasing of a string. -/
def strLower (s : String) : String :=
  String.mk (s.toList.map lowerChar)

/-- Python `int(s)` on a string: optional surrounding whitespace, optional
sign, then decimal digits.  (Digit-group underscores are not modelled; no
input in this development uses them.)  `none` models `ValueError`. -/
def pyInt (s : String) : Option Int :=
  let t := trimChars s.toList
  let (sign, digits) :=
    match t with
    | '-' :: rest => ((-1 : Int), rest)
    | '+' :: rest => ((1 : Int), rest)
    | _ => ((1 : Int), t)
  if digits.length > 0 ∧ digits.all Char.isDigit then
    some (sign * (digits.foldl (fun n c => 10 * n + (c.toNat - 48)) 0 : Nat))
  else
    none

/-- Python `f"{n:02d}"`: pad a nonnegative single digit to width two. -/
def fmt02 (n : Int) : String :=
  if 0 ≤ n ∧ n < 10 then "0" ++ toString n else toString n

/-! Section: Properties Reader (`load_source_properties`)

`configparser` core for the `key=value` lines of `source.properties`:
a line is split at the first `=` or `:` delimiter; key and value are
stripped of surrounding whitespace and the key is lowercased
(`optionxform`).  Blank lines, comment lines (`#`/`;`) and the injected
`[root]` section header carry no pairs.  (Continuation lines, duplicate-key
strictness and inline parsing errors are not exercised by the tool's
inputs and are not modelled.)
-/

/-- Index of the first `=` or `:` in a list of characters, if any. -/
def findDelim : List Char → Option Nat
  | [] => none
  | c :: cs =>
    if c = '=' ∨ c = ':' then some 0
    else (findDelim cs).map (· + 1)

/-- Parse one line of a properties file into a key/value pair. -/
def parseLine (line : List Char) : Option (String × String) :=
  let t := trimChars line
  match t with
  | [] => none
  | c :: _ =>
    if c = '#' ∨ c = ';' ∨ c = '[' then none
    else
      match findDelim t with
      | none => none
      | some i =>
        let key := String.mk ((trimChars (t.take i)).map lowerChar)
        let val := String.mk (trimChars (t.drop (i + 1)))
        some (key, val)

/-- A parsed properties mapping: list of lowercased keys with values. -/
def Props := List (String × String)

/-- Split a character list at newlines (`str.splitlines`-style iteration of
the file's lines). -/
def splitNewlines (l : List Char) : List (List Char) :=
  match l with
  | [] => [[]]
  | c :: cs =>
    let r := splitNewlines cs
    if c = '\n' then [] :: r
    else
      match r with
      | [] => [[c]]
      | x :: xs => (c :: x) :: xs

/-- Parse a whole properties file body. -/
def parseProps (content : String) : Props :=
  (splitNewlines content.toList).filterMap parseLine

/-- Model of `prop.get key`: `configparser` lowercases the requested option name. -/
def Props.get (ps : Props) (key : String) : Option String :=
  List.lookup (strLower key) ps

/-- The two kinds of `source.properties` container the tool opens: a plain
filesystem directory (via `__builtins__.open`) and a zip archive (via
`zipfile.ZipFile.open`).  An archive is its list of member names with
contents. -/
inductive Mod
  | builtins (fs : FS)
  | zip (entries : List (String × String))

/-- Model of `mod.open(path, 'r')`.  `builtins.open` raises `FileNotFoundError` for a
missing file; `ZipFile.open` raises `KeyError` for a missing member. -/
def Mod.openFile : Mod → String → Except PyError String
  | .builtins fs, p =>
    match fs.read p with
    | some c => .ok c
    | none => .error .fileNotFoundError
  | .zip es, p =>
    match List.lookup p es with
    | some c => .ok c
    | none => .error .keyError

/-- Model of `load_source_properties(mod, dir)`: open `dir/source.properties` from
the source, parse it prefixed by a `[root]` section header; a
`FileNotFoundError` is caught and yields an empty mapping. -/
def load_source_properties (mod : Mod) (dir : String) : Except PyError Props :=
  match mod.openFile (joinPath dir "source.properties") with
  | .ok content => .ok (parseProps content)
  | .error .fileNotFoundError => .ok []
  | .error e => .error e

/-- Model of `int(prop.get('Pkg.Revision', 0))`: the default `0` is already an int;
a present but non-integer value makes `int` raise `ValueError`. -/
def getRevision (ps : Props) : Except PyError Int :=
  match ps.get "Pkg.Revision" with
  | none => .ok 0
  | some v =>
    match pyInt v with
    | some n => .ok n
    | none => .error .valueError

/-! Section: Image Locator (`lookup_system_image`)
-/

/-- The directory `<sdk>/system-images/android-<api>/google_apis/<abi>` the
Locator inspects. -/
def imageDir (sdk abi : String) (api : Int) : String :=
  joinPath (joinPath (joinPath (joinPath sdk "system-images") s!"android-{api}") "google_apis") abi

/-- Model of `lookup_system_image(sdk, abi, api)`: read the directory's properties,
derive the revision, and return the `system.img` path only when that file
exists.  A `ValueError` from `int` propagates. -/
def lookup_system_image (fs : FS) (sdk abi : String) (api : Int) :
    Except PyError (Option String × Int) :=
  match load_source_properties (.builtins fs) (imageDir sdk abi api) with
  | .error e => .error e
  | .ok prop =>
    match getRevision prop with
    | .error e => .error e
    | .ok rev =>
      let imgPath := joinPath (imageDir sdk abi api) "system.img"
      .ok ((if fs.isfile imgPath then some imgPath else none), rev)

/-! Section: Package Fetcher (`download_system_package`)

Network effects are explicit: the returned list of URLs records the GET
requests performed, and `body` is the response payload (the archive bytes)
that a download would store.
-/

/-- The constructed archive filename `<abi>-<api>_r<rev:02d>.zip`. -/
def pkgFilename (abi : String) (api rev : Int) : String :=
  s!"{abi}-{api}_r{fmt02 rev}.zip"

/-- The fixed Google-hosted download URL for a package filename. -/
def pkgUrl (filename : String) : String :=
  "http://dl.google.com/android/repository/sys-img/google_apis/" ++ filename

/-- Model of `download_system_package(dir, abi, api, rev)`: skip the download when the
file is already on disk, otherwise GET the URL and write the payload.
Returns the updated filesystem, the local path, and the requests made. -/
def download_system_package (fs : FS) (dir abi : String) (api rev : Int)
    (body : String) : FS × String × List String :=
  let filename := pkgFilename abi api rev
  let path := joinPath dir filename
  if fs.isfile path then (fs, path, [])
  else ((path, body) :: fs, path, [pkgUrl filename])

/-! Section: Package Extractor (`extract_system_package`)
-/

/-- Model of `zip.extract(member, dst)`: write the member under `dst` preserving its
archive-relative name and return that path; a missing member raises
`KeyError` (as `ZipFile.getinfo` does). -/
def zipExtract (entries : List (String × String)) (member dst : String)
    (fs : FS) : Except PyError (FS × String) :=
  match List.lookup member entries with
  | some c =>
    let target := joinPath dst member
    .ok ((target, c) :: fs, target)
  | none => .error .keyError

/-- Model of `extract_system_package(package, abi, dst)`: re-derive the revision from
the archive's `<abi>/source.properties`; when the revision is nonzero and
`<dst>/<abi>/system.img` is not already on disk, extract it; finally null
out the path if the file still does not exist.  Returns the updated
filesystem with the locator-shaped pair. -/
def extract_system_package (entries : List (String × String)) (fs : FS)
    (abi dst : String) : Except PyError (FS × Option String × Int) :=
  match load_source_properties (.zip entries) abi with
  | .error e => .error e
  | .ok prop =>
    match getRevision prop with
    | .error e => .error e
    | .ok rev =>
      let img := joinPath (joinPath dst abi) "system.img"
      if rev ≠ 0 ∧ ¬ fs.isfile img then
        match zipExtract entries (joinPath abi "system.img") dst fs with
        | .error e => .error e
        | .ok (fs, img) =>
          .ok (fs, (if fs.isfile img then some img else none), rev)
      else
        .ok (fs, (if fs.isfile img then some img else none), rev)

/-! Section: Image Mounter/Copier (`mount_img_and_copy` and helpers)

The side effects of this phase are recorded as an action trace.  External
commands run through `subprocess.run` without `check=True`, so a nonzero
exit status is recorded in the trace but raises nothing.
-/

/-- Observable effects of the mount/copy phase. -/
inductive Action
  | print (msg : String)
  | mkdirs (dir : String)
  | runCmd (argv : List String) (exitStatus : Int)
  | createFile (path : String)
  | copyFile (src : String) (dstDir : String)
  | extractApex (apex : String) (dest : String)
  | rmdir (dir : String)
  | writeFile (path : String)
  | download (url : String) (path : String)
  deriving Repr, DecidableEq

/-- Is an action one of the `shutil.copy2` calls? -/
def Action.isCopy : Action → Bool
  | .copyFile _ _ => true
  | _ => false

/-- Environment of the mount/copy phase: whether `dst/mount` already exists
(`os.path.isdir`), the exit statuses the two privileged commands return,
and whether one of the `shutil.copy2` calls raises (e.g. a source binary is
missing from the extracted APEX). -/
structure MountWorld where
  mountDirExists : Bool
  mountExit : Int
  umountExit : Int
  copyFails : Bool
  deriving Repr, DecidableEq

/-- Model name for the `tempfile.TemporaryDirectory` that `deapexer`
extracts into (the real name is fresh per run). -/
def apexTmpDir : String := "/tmp/deapex"

/-- Model of `cpy(dst, src, *files)`: make `dst` and copy each file into it.  When
`fails` is set the first copy raises `FileNotFoundError`; the remaining
copies are not reached. -/
def cpy (fails : Bool) (dst src : String) (files : List String) :
    List Action × Option PyError :=
  match fails, files with
  | true, _ :: _ => ([.mkdirs dst], some .fileNotFoundError)
  | _, _ => (.mkdirs dst :: files.map (fun f => .copyFile (joinPath src f) dst), none)

/-- Model of `copy_from_apex(src, dst)`: `bin/linker64` into `dst/bin`, then the
three bionic libraries into `dst/lib64`. -/
def copy_from_apex (fails : Bool) (src dst : String) :
    List Action × Option PyError :=
  let (a1, e1) := cpy fails (joinPath dst "bin") (joinPath src "bin") ["linker64"]
  match e1 with
  | some e => (a1, some e)
  | none =>
    let (a2, e2) := cpy fails (joinPath dst "lib64")
      (joinPath (joinPath src "lib64") "bionic") ["libc.so", "libm.so", "libdl.so"]
    (a1 ++ a2, e2)

/-- Model of `extract_apex_and_copy(apex, dst)`: run `deapexer` into a temporary
directory, then `copy_from_apex` out of it. -/
def extract_apex_and_copy (fails : Bool) (apex dst : String) :
    List Action × Option PyError :=
  let (acts, err) := copy_from_apex fails apexTmpDir dst
  (.extractApex apex apexTmpDir :: acts, err)

/-- Model of `copy_from_img(src, dst)`: create `dst/linkerconfig` and an empty
`ld.config.txt` inside it. -/
def copy_from_img (dst : String) : List Action :=
  [.mkdirs (joinPath dst "linkerconfig"),
   .createFile (joinPath (joinPath dst "linkerconfig") "ld.config.txt")]

/-- The privileged mount command, at the fixed partition offset. -/
def mountCmd (img tempdir : String) : List String :=
  ["sudo", "mount", "-o", s!"loop,ro,offset={512 * 2048 * 3}", img, tempdir]

/-- The privileged unmount command. -/
def umountCmd (tempdir : String) : List String :=
  ["sudo", "umount", tempdir]

/-- Model of `mount_img_and_copy(img, dst)`: create `dst/mount` when absent, mount
the image there, create the linkerconfig placeholder, extract the runtime
APEX into `dst/system`; the `finally` block always unmounts and removes
`dst/mount` when this call created it.  The body's exception, if any, is
re-raised after the cleanup. -/
def mount_img_and_copy (w : MountWorld) (img dst : String) :
    List Action × Option PyError :=
  let tempdir := joinPath dst "mount"
  let mkdir := ¬ w.mountDirExists
  let pre := (if mkdir then [Action.mkdirs tempdir] else [])
    ++ [Action.runCmd (mountCmd img tempdir) w.mountExit]
    ++ copy_from_img dst
  let (apexActs, err) := extract_apex_and_copy w.copyFails
    (joinPath (joinPath (joinPath tempdir "system") "apex") "com.android.runtime.apex")
    (joinPath dst "system")
  let cleanup := Action.runCmd (umountCmd tempdir) w.umountExit
    :: (if mkdir then [Action.rmdir tempdir] else [])
  (pre ++ apexActs ++ cleanup, err)

/-! Section: Top-level orchestration (`main`)
-/

/-- Parsed command-line arguments (`argparse`), with defaults as declared:
`--abi arm64-v8a`, `--rev 0`, `--dir system-images`, `--version 1`. -/
structure Args where
  sdk : Option String
  abi : String
  api : Int
  rev : Int
  dir : String
  version : Int
  deriving Repr, DecidableEq

/-- The two environment variables consulted; `none` models an unset
variable, `some ""` a variable set to the empty string. -/
structure Env where
  androidSdkHome : Option String
  androidSdkRoot : Option String
  deriving Repr, DecidableEq

/-- The SDK-resolution prologue of `main`: keep `--sdk` when given, else
take `os.getenv('ANDROID_SDK_HOME')`, else `os.getenv('ANDROID_SDK_ROOT')`
— each taken whenever it is not `None`. -/
def resolveSdk (argSdk : Option String) (env : Env) : Option String :=
  match argSdk with
  | some s => some s
  | none =>
    match env.androidSdkHome with
    | some s => some s
    | none => env.androidSdkRoot

/-- The Python local `img` of `main`: unbound until the SDK branch or the
download branch assigns it; reading it while unbound raises
`UnboundLocalError`. -/
inductive ImgVar
  | unbound
  | defNone
  | path (p : String)
  deriving Repr, DecidableEq

/-- Evaluate `img is None`, raising when the local is unbound. -/
def ImgVar.isNone : ImgVar → Except PyError Bool
  | .unbound => .error .unboundLocalError
  | .defNone => .ok true
  | .path _ => .ok false

/-- External inputs of a whole run: the filesystem, the entries of the
package archive at the downloaded path, the download payload, and the
mount-phase environment. -/
structure World where
  fs : FS
  packageZip : List (String × String)
  responseBody : String
  mw : MountWorld

/-- Termination of `main`: an explicit `sys.exit` or falling off the end
(exit status 0). -/
inductive MainResult
  | exited (code : Nat)
  | finished
  deriving Repr, DecidableEq

/-- Model of `main(argv)` after argument parsing (`--dir` is taken already absolute;
`os.path.abspath` is not modelled).  Returns the action trace and how the
run ended; an uncaught exception discards the trace, as the claims about
erroneous runs only concern the exception itself. -/
def main (args : Args) (env : Env) (w : World) :
    Except PyError (List Action × MainResult) := do
  let sdk := resolveSdk args.sdk env
  let mut trace : List Action := []
  let mut argsRev := args.rev
  let mut img : ImgVar := .unbound
  match sdk with
  | some sdkPath =>
    let (i, r) ← lookup_system_image w.fs sdkPath args.abi args.api
    img := match i with
      | some p => .path p
      | none => .defNone
    if r = 0 ∨ i = none then
      trace := trace ++ [.print s!"No system image {args.abi} android-{args.api} in SDK"]
      img := .defNone
    else if argsRev ≠ 0 ∧ argsRev ≠ r then
      trace := trace ++ [.print s!"Required system image revision is {argsRev} but {r} in SDK"]
      img := .defNone
    if img matches .path _ then
      argsRev := r
  | none => pure ()
  let imgIsNone ← img.isNone
  if imgIsNone ∧ argsRev = 0 then
    trace := trace ++ [.print "Please provide system image revision number to download"]
    return (trace, .exited 1)
  let ver := s!"{args.api}_r{fmt02 argsRev}"
  let mut fs := w.fs
  if imgIsNone then
    trace := trace ++ [.print "Downloading package..."]
    let (fs1, pkg, reqs) := download_system_package fs args.dir args.abi args.api argsRev w.responseBody
    fs := fs1
    trace := trace ++ reqs.map (fun u => Action.download u pkg)
    trace := trace ++ [.print "Extracting package..."]
    let (fs2, i, r) ← extract_system_package w.packageZip fs args.abi
      (joinPath args.dir s!"android-{ver}")
    fs := fs2
    match i with
    | some p =>
      if argsRev ≠ r then
        trace := trace ++ [.print "Download/Extract system package failed"]
        return (trace, .exited 1)
      img := .path p
    | none =>
      trace := trace ++ [.print "Download/Extract system package failed"]
      return (trace, .exited 1)
  let imgPath ← match img with
    | .path p => Except.ok p
    | _ => Except.error .unboundLocalError
  let dst := joinPath (joinPath args.dir s!"android-{ver}") args.abi
  trace := trace ++ [.print "Mounting image and copying..."]
  let (macts, merr) := mount_img_and_copy w.mw imgPath dst
  trace := trace ++ macts
  match merr with
  | some e => throw e
  | none => pure ()
  trace := trace ++ [.print s!"Successfully copied to {dst}"]
  if args.version ≥ 0 then
    trace := trace ++ [.print "Generating NuGet package..."]
    trace := trace ++ [.writeFile (joinPath dst "README.md"),
                       .writeFile (joinPath dst "android-exe-launcher.nuspec")]
    let nuget := joinPath args.dir "nuget.exe"
    if ¬ fs.isfile nuget then
      trace := trace ++ [.download "https://dist.nuget.org/win-x86-commandline/latest/nuget.exe" nuget]
      fs := (nuget, "") :: fs
    trace := trace ++ [.runCmd ["wine64", nuget, "pack"] 0]
  return (trace, .finished)

/-! Section: Claims -/

/-- C1: with a required API level, an explicit nonzero revision, and no SDK
root resolvable, the run is claimed to proceed through download, extraction
and mount/copy.  In the code, the local `img` of `main` is assigned only
inside the SDK branch and the download branch, so the very first read
`if img is None` raises `UnboundLocalError` before any download is
attempted — the run crashes instead of downloading. -/
theorem c1_no_sdk_crashes_before_download :
    main ⟨none, "arm64-v8a", 30, 5, "/out", 1⟩ ⟨none, none⟩
      ⟨[], [], "", ⟨false, 0, 0, false⟩⟩ = .error .unboundLocalError := by
  rfl

/-- C3 counterexample: for an archive source whose `source.properties` is
missing, the Properties Reader does not return an empty mapping — the
`KeyError` raised by `ZipFile.open` is not the caught `FileNotFoundError`
and propagates. -/
theorem c3_archive_missing_raises :
    load_source_properties (.zip [("arm64-v8a/system.img", "IMG")]) "arm64-v8a"
      = .error .keyError := by
  rfl

/-- C3 amended: a filesystem-directory source with no `source.properties`
yields an empty mapping with no error, while an archive source missing that
member raises a `KeyError`. -/
theorem c3_missing_properties_behaviour :
    (∀ (fs : FS) (dir : String),
       fs.read (joinPath dir "source.properties") = none →
       load_source_properties (.builtins fs) dir = .ok []) ∧
    (∀ (es : List (String × String)) (dir : String),
       List.lookup (joinPath dir "source.properties") es = none →
       load_source_properties (.zip es) dir = .error .keyError) := by
  constructor
  · intro fs dir h
    simp [load_source_properties, Mod.openFile, h]
  · intro es dir h
    simp [load_source_properties, Mod.openFile, h]

/-- C3 witness: a concrete empty directory source and a concrete archive
without the member. -/
theorem c3_missing_properties_behaviour_witness :
    load_source_properties (.builtins []) "/sdk/dir" = .ok [] ∧
    load_source_properties (.zip []) "/sdk/dir" = .error .keyError :=
  ⟨c3_missing_properties_behaviour.1 [] "/sdk/dir" rfl,
   c3_missing_properties_behaviour.2 [] "/sdk/dir" rfl⟩

/-- C8 counterexample: a properties block whose `Pkg.Revision` value is not
an integer does not yield 0 — `int` raises `ValueError`. -/
theorem c8_malformed_revision_raises :
    getRevision (parseProps "Pkg.Revision = abc") = .error .valueError := by
  rfl

/-- C8 amended: the revision defaults to 0 when `Pkg.Revision` is absent,
but a present malformed value raises `ValueError` instead of defaulting. -/
theorem c8_revision_absent_or_malformed (ps : Props) :
    (Props.get ps "Pkg.Revision" = none → getRevision ps = .ok 0) ∧
    (∀ v, Props.get ps "Pkg.Revision" = some v → pyInt v = none →
       getRevision ps = .error .valueError) := by
  constructor
  · intro h
    simp [getRevision, h]
  · intro v hv hint
    simp [getRevision, hv, hint]

/-- C8 witness: the empty mapping defaults to 0; the mapping carrying a
non-numeric revision raises. -/
theorem c8_revision_absent_or_malformed_witness :
    getRevision [] = .ok 0 ∧
    getRevision [("pkg.revision", "7a")] = .error .valueError :=
  ⟨(c8_revision_absent_or_malformed []).1 rfl,
   (c8_revision_absent_or_malformed [("pkg.revision", "7a")]).2 "7a" (by decide) (by decide)⟩

/-- C9 counterexample: `ANDROID_SDK_HOME` set to the empty string wins over
a nonempty `ANDROID_SDK_ROOT`, because the code only tests `is None`. -/
theorem c9_empty_env_wins :
    resolveSdk none ⟨some "", some "/opt/android-sdk"⟩ = some "" ∧
    (some "" : Option String) ≠ some "/opt/android-sdk" := by
  constructor
  · rfl
  · decide

/-- C9 amended: with `--sdk` absent the first set environment variable wins
(`ANDROID_SDK_HOME` before `ANDROID_SDK_ROOT`), even when its value is the
empty string; `--sdk` itself always wins when given. -/
theorem c9_first_set_variable_wins (v s : String) (r : Option String) (env : Env) :
    resolveSdk none ⟨some v, r⟩ = some v ∧
    resolveSdk none ⟨none, r⟩ = r ∧
    resolveSdk (some s) env = some s :=
  ⟨rfl, rfl, rfl⟩

/-- C2 counterexample: an archive reporting revision 0 while `system.img`
already exists at the destination path makes the Extractor return that
path with revision 0 — not `(none, 0)` — because the final null-out check
only fires when the file is missing. -/
theorem c2_dest_file_survives_zero_revision :
    extract_system_package [("arm64-v8a/source.properties", "Pkg.Revision=0")]
      [("/out/arm64-v8a/system.img", "IMG")] "arm64-v8a" "/out"
      = .ok ([("/out/arm64-v8a/system.img", "IMG")],
             some "/out/arm64-v8a/system.img", 0) := by
  rfl

/-- C2 amended: when the archive's reported revision is 0 the Extractor
performs no extraction and returns `(none, 0)` regardless of the archive's
contents — unless `system.img` already exists at the destination path, in
which case that path is returned with revision 0. -/
theorem c2_zero_revision_no_extraction (entries : List (String × String))
    (fs : FS) (abi dst : String) (ps : Props)
    (hload : load_source_properties (.zip entries) abi = .ok ps)
    (hrev : getRevision ps = .ok 0) :
    extract_system_package entries fs abi dst =
      .ok (fs,
        (if fs.isfile (joinPath (joinPath dst abi) "system.img")
         then some (joinPath (joinPath dst abi) "system.img") else none), 0) := by
  simp only [extract_system_package]
  rw [hload]
  dsimp only
  rw [hrev]
  simp

/-- C2 witness: a concrete revision-0 archive with no destination file
yields `(none, 0)`. -/
theorem c2_zero_revision_no_extraction_witness :
    extract_system_package [("arm64-v8a/source.properties", "Pkg.Revision=0")]
      [] "arm64-v8a" "/out" = .ok ([], none, 0) :=
  c2_zero_revision_no_extraction
    [("arm64-v8a/source.properties", "Pkg.Revision=0")] [] "arm64-v8a" "/out"
    (parseProps "Pkg.Revision=0") rfl rfl

/-- C6: the Locator reads the properties of
`<sdk>/system-images/android-<api>/google_apis/<abi>` and, whenever
`system.img` is absent there, returns `(none, revision)` — even for a
nonzero revision. -/
theorem c6_absent_image_wins (fs : FS) (sdk abi : String) (api : Int)
    (ps : Props) (r : Int)
    (hload : load_source_properties (.builtins fs) (imageDir sdk abi api) = .ok ps)
    (hrev : getRevision ps = .ok r)
    (himg : fs.isfile (joinPath (imageDir sdk abi api) "system.img") = false) :
    lookup_system_image fs sdk abi api = .ok (none, r) := by
  simp only [lookup_system_image]
  rw [hload]
  dsimp only
  rw [hrev]
  simp [himg]

/-- C6 witness: an SDK directory whose properties report revision 7 but
with no `system.img` on disk. -/
theorem c6_absent_image_wins_witness :
    lookup_system_image
      [("/sdk/system-images/android-30/google_apis/arm64-v8a/source.properties",
        "Pkg.Revision = 7")] "/sdk" "arm64-v8a" 30 = .ok (none, 7) :=
  c6_absent_image_wins
    [("/sdk/system-images/android-30/google_apis/arm64-v8a/source.properties",
      "Pkg.Revision = 7")] "/sdk" "arm64-v8a" 30
    (parseProps "Pkg.Revision = 7") 7 rfl rfl rfl

/-- C7: the Fetcher is idempotent by filename — when
`<abi>-<api>_r<rev:02d>.zip` is already on disk a call performs no network
request and returns its path unchanged, and in particular a repeated call
returns the same path as the first with no second request. -/
theorem c7_cached_download_idempotent (fs : FS) (dir abi : String)
    (api rev : Int) (b b2 : String)
    (h : fs.isfile (joinPath dir (pkgFilename abi api rev)) = true) :
    download_system_package fs dir abi api rev b
      = (fs, joinPath dir (pkgFilename abi api rev), []) ∧
    download_system_package (download_system_package fs dir abi api rev b2).1
        dir abi api rev b
      = (fs, joinPath dir (pkgFilename abi api rev), []) := by
  constructor <;> simp [download_system_package, h]

/-- C7 witness: a concrete output directory already holding
`arm64-v8a-30_r05.zip`. -/
theorem c7_cached_download_idempotent_witness :
    download_system_package [("/out/arm64-v8a-30_r05.zip", "Z")]
        "/out" "arm64-v8a" 30 5 "B"
      = ([("/out/arm64-v8a-30_r05.zip", "Z")], "/out/arm64-v8a-30_r05.zip", []) ∧
    download_system_package
        (download_system_package [("/out/arm64-v8a-30_r05.zip", "Z")]
          "/out" "arm64-v8a" 30 5 "B2").1 "/out" "arm64-v8a" 30 5 "B"
      = ([("/out/arm64-v8a-30_r05.zip", "Z")], "/out/arm64-v8a-30_r05.zip", []) :=
  c7_cached_download_idempotent [("/out/arm64-v8a-30_r05.zip", "Z")]
    "/out" "arm64-v8a" 30 5 "B" "B2" rfl

/-- Destination directory of a copy action, `none` for other actions. -/
def copyDst : Action → Option String
  | .copyFile _ d => some d
  | _ => none

/-- C4 counterexample: in a successful mount/copy run over the output tree
`/out/android-30_r05/arm64-v8a`, every one of the four copies lands under
`.../arm64-v8a/system/{bin,lib64}` — none lands directly under
`.../arm64-v8a/bin` or `.../arm64-v8a/lib64` — because
`extract_apex_and_copy` is invoked with `os.path.join(dst, 'system')` as
its destination. -/
theorem c4_copies_not_directly_under_abi :
    ((mount_img_and_copy ⟨false, 0, 0, false⟩ "/img"
        "/out/android-30_r05/arm64-v8a").1.filterMap copyDst)
      = ["/out/android-30_r05/arm64-v8a/system/bin",
         "/out/android-30_r05/arm64-v8a/system/lib64",
         "/out/android-30_r05/arm64-v8a/system/lib64",
         "/out/android-30_r05/arm64-v8a/system/lib64"] ∧
    "/out/android-30_r05/arm64-v8a/bin"
      ∉ ((mount_img_and_copy ⟨false, 0, 0, false⟩ "/img"
          "/out/android-30_r05/arm64-v8a").1.filterMap copyDst) ∧
    "/out/android-30_r05/arm64-v8a/lib64"
      ∉ ((mount_img_and_copy ⟨false, 0, 0, false⟩ "/img"
          "/out/android-30_r05/arm64-v8a").1.filterMap copyDst) := by
  refine ⟨by rfl, ?_, ?_⟩ <;> decide

/-- C4 amended: a successful mount/copy run copies exactly four files —
`bin/linker64` and `lib64/bionic/{libc.so,libm.so,libdl.so}` of the
extracted APEX — into `<output>/system/bin` and `<output>/system/lib64`
(one directory level deeper than the output tree's `bin/` and `lib64/`). -/
theorem c4_exactly_four_copies_into_system (w : MountWorld) (img dst : String)
    (h : w.copyFails = false) :
    ((mount_img_and_copy w img dst).1.filter Action.isCopy)
      = [.copyFile (joinPath (joinPath apexTmpDir "bin") "linker64")
           (joinPath (joinPath dst "system") "bin"),
         .copyFile (joinPath (joinPath (joinPath apexTmpDir "lib64") "bionic") "libc.so")
           (joinPath (joinPath dst "system") "lib64"),
         .copyFile (joinPath (joinPath (joinPath apexTmpDir "lib64") "bionic") "libm.so")
           (joinPath (joinPath dst "system") "lib64"),
         .copyFile (joinPath (joinPath (joinPath apexTmpDir "lib64") "bionic") "libdl.so")
           (joinPath (joinPath dst "system") "lib64")] := by
  cases hmde : w.mountDirExists <;>
    simp [mount_img_and_copy, extract_apex_and_copy, copy_from_apex, cpy,
      copy_from_img, Action.isCopy, h, hmde]

/-- C4 witness: a concrete successful run. -/
theorem c4_exactly_four_copies_into_system_witness :
    ((mount_img_and_copy ⟨true, 0, 0, false⟩ "/img" "/out").1.filter Action.isCopy)
      = [.copyFile (joinPath (joinPath apexTmpDir "bin") "linker64")
           (joinPath (joinPath "/out" "system") "bin"),
         .copyFile (joinPath (joinPath (joinPath apexTmpDir "lib64") "bionic") "libc.so")
           (joinPath (joinPath "/out" "system") "lib64"),
         .copyFile (joinPath (joinPath (joinPath apexTmpDir "lib64") "bionic") "libm.so")
           (joinPath (joinPath "/out" "system") "lib64"),
         .copyFile (joinPath (joinPath (joinPath apexTmpDir "lib64") "bionic") "libdl.so")
           (joinPath (joinPath "/out" "system") "lib64")] :=
  c4_exactly_four_copies_into_system ⟨true, 0, 0, false⟩ "/img" "/out" rfl

/-- C5: on every exit path of the mount/copy step the trace ends with the
unmount command followed only by the conditional directory removal — so an
unmount is attempted after all copies, even when a copy fails and its
exception propagates — and `dst/mount` is removed exactly when the tool
created it. -/
theorem c5_unmount_always_cleanup_iff_created (w : MountWorld) (img dst : String) :
    ∃ pre post,
      (mount_img_and_copy w img dst).1
        = pre ++ Action.runCmd (umountCmd (joinPath dst "mount")) w.umountExit :: post ∧
      (∀ a ∈ post, a.isCopy = false) ∧
      (Action.rmdir (joinPath dst "mount") ∈ post ↔ w.mountDirExists = false) ∧
      ((mount_img_and_copy w img dst).2 = none ↔ w.copyFails = false) := by
  cases hmde : w.mountDirExists <;> cases hcf : w.copyFails <;>
    refine ⟨_, _, rfl, ?_, ?_, ?_⟩ <;>
      simp [mount_img_and_copy, extract_apex_and_copy, copy_from_apex, cpy,
        copy_from_img, Action.isCopy, hmde, hcf]

/-- C10: the exit statuses of the privileged mount and unmount commands are
ignored — whatever they are, no exception arises from them, the placeholder
`linkerconfig/ld.config.txt` is still created and the APEX extraction is
still attempted against the (possibly unmounted) `dst/mount` directory, and
the step's outcome is unchanged. -/
theorem c10_subprocess_status_ignored (w : MountWorld) (img dst : String) (e u : Int) :
    (mount_img_and_copy ⟨w.mountDirExists, e, u, w.copyFails⟩ img dst).2
      = (mount_img_and_copy w img dst).2 ∧
    Action.createFile (joinPath (joinPath dst "linkerconfig") "ld.config.txt")
      ∈ (mount_img_and_copy ⟨w.mountDirExists, e, u, w.copyFails⟩ img dst).1 ∧
    Action.extractApex
        (joinPath (joinPath (joinPath (joinPath dst "mount") "system") "apex")
          "com.android.runtime.apex") apexTmpDir
      ∈ (mount_img_and_copy ⟨w.mountDirExists, e, u, w.copyFails⟩ img dst).1 ∧
    (w.copyFails = false →
      (mount_img_and_copy ⟨w.mountDirExists, e, u, w.copyFails⟩ img dst).2 = none) := by
  cases hmde : w.mountDirExists <;> cases hcf : w.copyFails <;>
    simp [mount_img_and_copy, extract_apex_and_copy, copy_from_apex, cpy,
      copy_from_img, hmde, hcf]

/-- C10 witness: a failed mount (status 32) and failed unmount (status 1)
still yield a clean outcome with the placeholder file created and the
extraction attempted. -/
theorem c10_subprocess_status_ignored_witness :
    (mount_img_and_copy ⟨false, 32, 1, false⟩ "/img" "/out").2
      = (mount_img_and_copy ⟨false, 0, 0, false⟩ "/img" "/out").2 ∧
    Action.createFile (joinPath (joinPath "/out" "linkerconfig") "ld.config.txt")
      ∈ (mount_img_and_copy ⟨false, 32, 1, false⟩ "/img" "/out").1 ∧
    Action.extractApex
        (joinPath (joinPath (joinPath (joinPath "/out" "mount") "system") "apex")
          "com.android.runtime.apex") apexTmpDir
      ∈ (mount_img_and_copy ⟨false, 32, 1, false⟩ "/img" "/out").1 ∧
    (mount_img_and_copy ⟨false, 32, 1, false⟩ "/img" "/out").2 = none := by
  have h := c10_subprocess_status_ignored ⟨false, 0, 0, false⟩ "/img" "/out" 32 1
  exact ⟨h.1, h.2.1, h.2.2.1, h.2.2.2 rfl⟩

end Make

